import Mathlib

/-!
Verification model of the pico_fota_bootloader core (bootloader.c,
src/pico_fota_bootloader.c, include/pico_fota_bootloader.h).

Flash regions are modelled as lists of bytes (natural numbers below 256).
A flash page-program / sector-erase-then-program sequence is modelled by
an in-place overwrite of a byte range, which is the abstraction the code
relies on (it always erases a sector before programming it, or programs
previously erased bytes).
-/

set_option maxRecDepth 1000000

/-- FLASH_SECTOR_SIZE from hardware/flash.h for the RP2040: 4096 bytes. -/
def FLASH_SECTOR_SIZE : Nat := 4096

/-- PFB_ALIGN_SIZE from include/pico_fota_bootloader.h: 256 bytes. -/
def PFB_ALIGN_SIZE : Nat := 256

/-- Read one byte of a flash region (0 outside the region). -/
def byteAt (l : List Nat) (i : Nat) : Nat := l.getD i 0

/-- Overwrite the byte range starting at offset off with the bytes of b.
Models flash_range_program of b at off (the affected range having been
erased), leaving every byte outside the range untouched. -/
def writeAt (l : List Nat) (off : Nat) (b : List Nat) : List Nat :=
  l.take off ++ b ++ l.drop (off + b.length)

/-- The four little-endian bytes of a 32-bit word, as stored by a
uint32_t write on the (little-endian) RP2040. -/
def leBytes (w : Nat) : List Nat :=
  [w % 256, w / 256 % 256, w / 65536 % 256, w / 16777216 % 256]

/-- Store a 32-bit word at word index i of a byte region
(data_ptr_u32[array_index] = data). -/
def writeWordLE (l : List Nat) (i w : Nat) : List Nat :=
  writeAt l (4 * i) (leBytes w)

/-- Read a 32-bit word at word index i of a byte region (a direct
uint32_t load from XIP, little-endian). -/
def readWordLE (l : List Nat) (i : Nat) : Nat :=
  byteAt l (4 * i) + 256 * byteAt l (4 * i + 1) + 65536 * byteAt l (4 * i + 2)
    + 16777216 * byteAt l (4 * i + 3)

theorem writeAt_length {l b : List Nat} {off : Nat}
    (h : off + b.length ≤ l.length) : (writeAt l off b).length = l.length := by
  simp [writeAt]
  omega

theorem byteAt_writeAt_lt {l b : List Nat} {off j : Nat}
    (hj : j < off) (hoff : off ≤ l.length) :
    byteAt (writeAt l off b) j = byteAt l j := by
  have h1 : j < (l.take off).length := by
    simp only [List.length_take]; omega
  simp only [byteAt, writeAt, List.getD_eq_getElem?_getD, List.append_assoc]
  rw [List.getElem?_append_left h1, List.getElem?_take, if_pos hj]

theorem byteAt_writeAt_mid {l b : List Nat} {off j : Nat}
    (h1 : off ≤ j) (h2 : j < off + b.length) (hoff : off ≤ l.length) :
    byteAt (writeAt l off b) j = byteAt b (j - off) := by
  have htake : (l.take off).length = off := by
    simp only [List.length_take]; omega
  simp only [byteAt, writeAt, List.getD_eq_getElem?_getD, List.append_assoc]
  rw [List.getElem?_append_right (by omega), htake,
    List.getElem?_append_left (by omega)]

theorem byteAt_writeAt_ge {l b : List Nat} {off j : Nat}
    (h1 : off + b.length ≤ j) (hoff : off ≤ l.length) :
    byteAt (writeAt l off b) j = byteAt l j := by
  have htake : (l.take off).length = off := by
    simp only [List.length_take]; omega
  simp only [byteAt, writeAt, List.getD_eq_getElem?_getD, List.append_assoc]
  rw [List.getElem?_append_right (by omega), htake,
    List.getElem?_append_right (by omega), List.getElem?_drop]
  congr 2
  omega

theorem writeWordLE_length {l : List Nat} {i w : Nat}
    (h : 4 * i + 4 ≤ l.length) : (writeWordLE l i w).length = l.length := by
  apply writeAt_length
  simp [leBytes]
  omega

theorem readWordLE_writeWordLE_self {l : List Nat} {i w : Nat}
    (hw : w < 4294967296) (h : 4 * i + 4 ≤ l.length) :
    readWordLE (writeWordLE l i w) i = w := by
  have hlb : (leBytes w).length = 4 := by simp [leBytes]
  have h0 : byteAt (writeWordLE l i w) (4 * i) = byteAt (leBytes w) 0 := by
    simpa using @byteAt_writeAt_mid l (leBytes w) (4 * i) (4 * i)
      (le_refl (4 * i)) (by omega) (by omega)
  have h1 : byteAt (writeWordLE l i w) (4 * i + 1) = byteAt (leBytes w) 1 := by
    have := @byteAt_writeAt_mid l (leBytes w) (4 * i) (4 * i + 1)
      (by omega) (by omega) (by omega)
    simpa using this
  have h2 : byteAt (writeWordLE l i w) (4 * i + 2) = byteAt (leBytes w) 2 := by
    have := @byteAt_writeAt_mid l (leBytes w) (4 * i) (4 * i + 2)
      (by omega) (by omega) (by omega)
    simpa using this
  have h3 : byteAt (writeWordLE l i w) (4 * i + 3) = byteAt (leBytes w) 3 := by
    have := @byteAt_writeAt_mid l (leBytes w) (4 * i) (4 * i + 3)
      (by omega) (by omega) (by omega)
    simpa using this
  rw [readWordLE, h0, h1, h2, h3]
  simp only [leBytes, byteAt, List.getD]
  simp
  omega

theorem readWordLE_writeWordLE_ne {l : List Nat} {i j w : Nat}
    (hij : j ≠ i) (h : 4 * i + 4 ≤ l.length) :
    readWordLE (writeWordLE l i w) j = readWordLE l j := by
  have hlb : (leBytes w).length = 4 := by simp [leBytes]
  have hcase : 4 * j + 3 < 4 * i ∨ 4 * i + 4 ≤ 4 * j := by omega
  have key : ∀ k, k ≤ 3 → byteAt (writeWordLE l i w) (4 * j + k) = byteAt l (4 * j + k) := by
    intro k hk
    rcases hcase with hlt | hge
    · exact byteAt_writeAt_lt (by omega) (by omega)
    · exact byteAt_writeAt_ge (by rw [hlb]; omega) (by omega)
  rw [readWordLE, readWordLE]
  have k0 := key 0 (by omega)
  have k1 := key 1 (by omega)
  have k2 := key 2 (by omega)
  have k3 := key 3 (by omega)
  simp only [Nat.add_zero] at k0
  rw [k0, k1, k2, k3]

theorem byteAt_writeWordLE_outside {l : List Nat} {i w b : Nat}
    (hb : b < 4 * i ∨ 4 * i + 4 ≤ b) (h : 4 * i + 4 ≤ l.length) :
    byteAt (writeWordLE l i w) b = byteAt l b := by
  have hlb : (leBytes w).length = 4 := by simp [leBytes]
  rcases hb with hlt | hge
  · exact byteAt_writeAt_lt hlt (by omega)
  · exact byteAt_writeAt_ge (by rw [hlb]; omega) (by omega)

theorem writeAt_writeAt_same {l b b' : List Nat} {off : Nat}
    (hlen : b.length = b'.length) (h : off + b.length ≤ l.length) :
    writeAt (writeAt l off b) off b' = writeAt l off b' := by
  have htake : (l.take off).length = off := by
    simp only [List.length_take]; omega
  simp only [writeAt]
  rw [@List.drop_left' Nat (l.take off ++ b) (l.drop (off + b.length))
    (off + b'.length) (by simp only [List.length_append, htake, hlen])]
  rw [List.append_assoc (l.take off) b (l.drop (off + b.length)),
    List.take_left' htake, hlen, List.append_assoc]

theorem writeAt_writeAt_adjacent {l b1 b2 : List Nat} {off : Nat}
    (h : off + b1.length ≤ l.length) :
    writeAt (writeAt l off b1) (off + b1.length) b2 = writeAt l off (b1 ++ b2) := by
  have htake : (l.take off).length = off := by
    simp only [List.length_take]; omega
  have hpre : (l.take off ++ b1).length = off + b1.length := by
    simp only [List.length_append, htake]
  have hdrop : ((l.take off ++ b1) ++ l.drop (off + b1.length)).drop
      (off + b1.length + b2.length) = l.drop (off + b1.length + b2.length) := by
    rw [← List.drop_drop b2.length (off + b1.length), List.drop_left' hpre,
      List.drop_drop]
  calc writeAt (writeAt l off b1) (off + b1.length) b2
      = ((l.take off ++ b1) ++ l.drop (off + b1.length)).take (off + b1.length)
        ++ b2 ++ ((l.take off ++ b1) ++ l.drop (off + b1.length)).drop
          (off + b1.length + b2.length) := rfl
    _ = (l.take off ++ b1) ++ b2 ++ l.drop (off + b1.length + b2.length) := by
        rw [List.take_left' hpre, hdrop]
    _ = writeAt l off (b1 ++ b2) := by
        simp only [writeAt, List.length_append, List.append_assoc, Nat.add_assoc]

/-! ## Magic marker values (src/pico_fota_bootloader.c lines 45-55) -/

def PFB_SHOULD_SWAP_MAGIC : Nat := 0xabcdef12

def PFB_SHOULD_NOT_SWAP_MAGIC : Nat := 0x00000000

def PFB_HAS_NEW_FIRMWARE_MAGIC : Nat := 0x12345678

def PFB_NO_NEW_FIRMWARE_MAGIC : Nat := 0x00000000

def PFB_IS_AFTER_ROLLBACK_MAGIC : Nat := 0xbeefbeef

def PFB_IS_NOT_AFTER_ROLLBACK_MAGIC : Nat := 0x00000000

def PFB_SHOULD_ROLLBACK_MAGIC : Nat := 0xdeadead

def PFB_SHOULD_NOT_ROLLBACK_MAGIC : Nat := 0x00000000

/-- Modelled from the spec: the INFO-sector layout comes from
linker_common/linker_definitions.h, which is not under src/. The spec says
the INFO sector stores four independent 4-byte markers at fixed byte
offsets; we place them at word indices 0..3 of the sector. -/
def INFO_IS_DOWNLOAD_SLOT_VALID_IDX : Nat := 0

/-- Modelled from the spec: word index of the FIRMWARE_SWAPPED marker. -/
def INFO_IS_FIRMWARE_SWAPPED_IDX : Nat := 1

/-- Modelled from the spec: word index of the SHOULD_ROLLBACK marker. -/
def INFO_SHOULD_ROLLBACK_IDX : Nat := 2

/-- Modelled from the spec: word index of the IS_AFTER_ROLLBACK marker. -/
def INFO_IS_AFTER_ROLLBACK_IDX : Nat := 3

/-! ## Info-sector codec (src/pico_fota_bootloader.c lines 64-97) -/

/-- An erased flash sector reads as all-ones bytes. -/
def erasedSector : List Nat := List.replicate FLASH_SECTOR_SIZE 255

/-- overwrite_4_bytes_in_flash (together with its _isr_unsafe body):
copy the whole INFO sector into a RAM buffer, overwrite the 32-bit word
at the given word index in the buffer, erase the INFO sector, and program
the whole sector back from the buffer. Interrupt masking has no effect in
this single-threaded model. -/
def overwrite_4_bytes_in_flash (info : List Nat) (array_index : Nat)
    (data : Nat) : List Nat :=
  let data_arr := info
  let data_arr := writeWordLE data_arr array_index data
  writeAt erasedSector 0 data_arr

theorem overwrite_4_bytes_eq {info : List Nat} {i d : Nat}
    (hinfo : info.length = FLASH_SECTOR_SIZE) (hi : 4 * i + 4 ≤ FLASH_SECTOR_SIZE) :
    overwrite_4_bytes_in_flash info i d = writeWordLE info i d := by
  have hlen : (writeWordLE info i d).length = FLASH_SECTOR_SIZE := by
    rw [writeWordLE_length (by omega)]; exact hinfo
  simp only [overwrite_4_bytes_in_flash, writeAt, List.take_zero, Nat.zero_add,
    List.nil_append, hlen]
  have : (erasedSector).length = FLASH_SECTOR_SIZE := by
    simp [erasedSector]
  rw [List.drop_eq_nil_of_le (by omega), List.append_nil]

theorem overwrite_length {info : List Nat} {i d : Nat}
    (hinfo : info.length = FLASH_SECTOR_SIZE) (hi : 4 * i + 4 ≤ FLASH_SECTOR_SIZE) :
    (overwrite_4_bytes_in_flash info i d).length = FLASH_SECTOR_SIZE := by
  rw [overwrite_4_bytes_eq hinfo hi, writeWordLE_length (by omega)]
  exact hinfo

/-! ## Marker operations (src/pico_fota_bootloader.c lines 99-148, 221-298) -/

def mark_download_slot (info : List Nat) (magic : Nat) : List Nat :=
  overwrite_4_bytes_in_flash info INFO_IS_DOWNLOAD_SLOT_VALID_IDX magic

def notify_pico_about_firmware (info : List Nat) (magic : Nat) : List Nat :=
  overwrite_4_bytes_in_flash info INFO_IS_FIRMWARE_SWAPPED_IDX magic

def mark_if_should_rollback (info : List Nat) (magic : Nat) : List Nat :=
  overwrite_4_bytes_in_flash info INFO_SHOULD_ROLLBACK_IDX magic

def mark_if_is_after_rollback (info : List Nat) (magic : Nat) : List Nat :=
  overwrite_4_bytes_in_flash info INFO_IS_AFTER_ROLLBACK_IDX magic

def pfb_mark_download_slot_as_valid (info : List Nat) : List Nat :=
  mark_download_slot info PFB_SHOULD_SWAP_MAGIC

def pfb_mark_download_slot_as_invalid (info : List Nat) : List Nat :=
  mark_download_slot info PFB_SHOULD_NOT_SWAP_MAGIC

def pfb_is_after_firmware_update (info : List Nat) : Bool :=
  readWordLE info INFO_IS_FIRMWARE_SWAPPED_IDX == PFB_HAS_NEW_FIRMWARE_MAGIC

def pfb_firmware_commit (info : List Nat) : List Nat :=
  mark_if_should_rollback info PFB_SHOULD_NOT_ROLLBACK_MAGIC

def pfb_is_after_rollback (info : List Nat) : Bool :=
  readWordLE info INFO_IS_AFTER_ROLLBACK_IDX == PFB_IS_AFTER_ROLLBACK_MAGIC

def pfb_should_rollback (info : List Nat) : Bool :=
  readWordLE info INFO_SHOULD_ROLLBACK_IDX == PFB_SHOULD_ROLLBACK_MAGIC

def pfb_has_firmware_to_swap (info : List Nat) : Bool :=
  readWordLE info INFO_IS_DOWNLOAD_SLOT_VALID_IDX == PFB_SHOULD_SWAP_MAGIC

def pfb_mark_should_rollback (info : List Nat) : List Nat :=
  mark_if_should_rollback info PFB_SHOULD_ROLLBACK_MAGIC

def pfb_mark_is_after_rollback (info : List Nat) : List Nat :=
  mark_if_is_after_rollback info PFB_IS_AFTER_ROLLBACK_MAGIC

def pfb_mark_is_not_after_rollback (info : List Nat) : List Nat :=
  mark_if_is_after_rollback info PFB_IS_NOT_AFTER_ROLLBACK_MAGIC

def pfb_mark_pico_has_new_firmware (info : List Nat) : List Nat :=
  notify_pico_about_firmware info PFB_HAS_NEW_FIRMWARE_MAGIC

def pfb_mark_pico_has_no_new_firmware (info : List Nat) : List Nat :=
  notify_pico_about_firmware info PFB_NO_NEW_FIRMWARE_MAGIC

/-! ## Swap engine (bootloader.c lines 54-88)

The APP and DOWNLOAD regions are byte lists of length
SWAP_ITERS * FLASH_SECTOR_SIZE, where SWAP_ITERS is the constant
__FLASH_SWAP_SPACE_LENGTH / FLASH_SECTOR_SIZE of the linker script. -/

/-- The copy of one flash sector made into a RAM swap buffer
(memcpy of FLASH_SECTOR_SIZE bytes from the start of sector i). -/
def sectorAt (l : List Nat) (i : Nat) : List Nat :=
  (l.drop (i * FLASH_SECTOR_SIZE)).take FLASH_SECTOR_SIZE

/-- One iteration of the swap loop in swap_images: copy DOWNLOAD sector i
and APP sector i to RAM buffers, erase both sectors, program the APP
sector from the DOWNLOAD buffer and the DOWNLOAD sector from the APP
buffer. The pair is (APP region, DOWNLOAD region). -/
def swapStep (p : List Nat × List Nat) (i : Nat) : List Nat × List Nat :=
  let swap_buff_from_downlaod_slot := sectorAt p.2 i
  let swap_buff_from_application_slot := sectorAt p.1 i
  let app1 := writeAt p.1 (i * FLASH_SECTOR_SIZE) erasedSector
  let download1 := writeAt p.2 (i * FLASH_SECTOR_SIZE) erasedSector
  (writeAt app1 (i * FLASH_SECTOR_SIZE) swap_buff_from_downlaod_slot,
   writeAt download1 (i * FLASH_SECTOR_SIZE) swap_buff_from_application_slot)

/-- swap_images: run the swap loop over all SWAP_ITERATIONS sectors. -/
def swap_images (n : Nat) (app download : List Nat) : List Nat × List Nat :=
  (List.range n).foldl swapStep (app, download)

/-! ## Application API: flash write (src/pico_fota_bootloader.c lines 154-185)

Modelled without the optional AES decryption plugin
(PFB_WITH_IMAGE_ENCRYPTION undefined, the default build). -/

/-- pfb_write_to_flash_aligned_256_bytes. offset_bytes and len_bytes are
size_t values, 32 bits wide on the RP2040, so the bound check compares
the 32-bit-wrapped sum offset_bytes + len_bytes against
__FLASH_SWAP_SPACE_LENGTH, and the uint32 destination address, the XIP
offset of __FLASH_DOWNLOAD_SLOT_START plus offset_bytes plus i * 256,
wraps as well: an accepted call can program pages outside the DOWNLOAD
slot. The state acted on is therefore the whole flash, indexed by XIP
offset from 0, with the DOWNLOAD slot starting at byte
download_slot_xip. The first component of the result is the returned
status, the second the flash after the call. -/
def pfb_write_to_flash_aligned_256_bytes
    (swap_space_length download_slot_xip : Nat) (flash src : List Nat)
    (offset_bytes len_bytes : Nat) : Nat × List Nat :=
  if len_bytes % PFB_ALIGN_SIZE ≠ 0 ∨ offset_bytes % PFB_ALIGN_SIZE ≠ 0
      ∨ (offset_bytes + len_bytes) % 4294967296 > swap_space_length then
    (1, flash)
  else
    (0, (List.range (len_bytes / PFB_ALIGN_SIZE)).foldl
      (fun fl i => writeAt fl
        ((download_slot_xip + offset_bytes + i * PFB_ALIGN_SIZE) % 4294967296)
        ((src.drop (i * PFB_ALIGN_SIZE)).take PFB_ALIGN_SIZE)) flash)

/-! ## Boot dispatcher (bootloader.c main, lines 128-160) -/

/-- Persistent flash state: the APP region, the DOWNLOAD region and the
INFO sector. -/
structure PfbState where
  app : List Nat
  download : List Nat
  info : List Nat
deriving DecidableEq

/-- Well-formed flash layout for a device whose swap space is n sectors
long: APP and DOWNLOAD both have n sectors, INFO is one sector. -/
def Wf (n : Nat) (s : PfbState) : Prop :=
  s.app.length = n * FLASH_SECTOR_SIZE
    ∧ s.download.length = n * FLASH_SECTOR_SIZE
    ∧ s.info.length = FLASH_SECTOR_SIZE

instance (n : Nat) (s : PfbState) : Decidable (Wf n s) := by
  unfold Wf; infer_instance

/-- One run of the bootloader's main(): evaluate the markers in the
priority order rollback > new image > nothing, swap if needed, rewrite
the markers, and finally mark the download slot as invalid before
jumping to the application. -/
def bootStep (n : Nat) (s : PfbState) : PfbState :=
  let s1 :=
    if pfb_should_rollback s.info then
      let p := swap_images n s.app s.download
      let info := pfb_firmware_commit s.info
      let info := pfb_mark_pico_has_no_new_firmware info
      let info := pfb_mark_is_after_rollback info
      PfbState.mk p.1 p.2 info
    else if pfb_has_firmware_to_swap s.info then
      let p := swap_images n s.app s.download
      let info := pfb_mark_pico_has_new_firmware s.info
      let info := pfb_mark_is_not_after_rollback info
      let info := pfb_mark_should_rollback info
      PfbState.mk p.1 p.2 info
    else
      let info := pfb_firmware_commit s.info
      let info := pfb_mark_pico_has_no_new_firmware info
      PfbState.mk s.app s.download info
  PfbState.mk s1.app s1.download (pfb_mark_download_slot_as_invalid s1.info)

/-! ## SHA-256 plugin

Modelled from the spec: the digest plugin (mbedtls_sha256_starts_ret /
update_ret / finish_ret) is an external collaborator that is not part of
this repository; the spec specifies it at its interface as a pure
function of the input bytes computing standard SHA-256 (FIPS 180-4).
The model below is that function; it is checked against the standard
test vectors further down. -/

def rotr32 (x n : Nat) : Nat := ((x >>> n) ||| (x <<< (32 - n))) % 4294967296

def shaCh (x y z : Nat) : Nat := (x &&& y) ^^^ ((x ^^^ 4294967295) &&& z)

def shaMaj (x y z : Nat) : Nat := (x &&& y) ^^^ (x &&& z) ^^^ (y &&& z)

def bsig0 (x : Nat) : Nat := rotr32 x 2 ^^^ rotr32 x 13 ^^^ rotr32 x 22

def bsig1 (x : Nat) : Nat := rotr32 x 6 ^^^ rotr32 x 11 ^^^ rotr32 x 25

def ssig0 (x : Nat) : Nat := rotr32 x 7 ^^^ rotr32 x 18 ^^^ (x >>> 3)

def ssig1 (x : Nat) : Nat := rotr32 x 17 ^^^ rotr32 x 19 ^^^ (x >>> 10)

def shaK : List Nat :=
  [1116352408, 1899447441, 3049323471, 3921009573, 961987163,
   1508970993, 2453635748, 2870763221, 3624381080, 310598401,
   607225278, 1426881987, 1925078388, 2162078206, 2614888103,
   3248222580, 3835390401, 4022224774, 264347078, 604807628,
   770255983, 1249150122, 1555081692, 1996064986, 2554220882,
   2821834349, 2952996808, 3210313671, 3336571891, 3584528711,
   113926993, 338241895, 666307205, 773529912, 1294757372,
   1396182291, 1695183700, 1986661051, 2177026350, 2456956037,
   2730485921, 2820302411, 3259730800, 3345764771, 3516065817,
   3600352804, 4094571909, 275423344, 430227734, 506948616,
   659060556, 883997877, 958139571, 1322822218, 1537002063,
   1747873779, 1955562222, 2024104815, 2227730452, 2361852424,
   2428436474, 2756734187, 3204031479, 3329325298]

/-- The 16 big-endian 32-bit words of one 64-byte block. -/
def blockWords (block : List Nat) : List Nat :=
  (List.range 16).map (fun i =>
    byteAt block (4 * i) * 16777216 + byteAt block (4 * i + 1) * 65536
      + byteAt block (4 * i + 2) * 256 + byteAt block (4 * i + 3))

/-- Extend 16 schedule words to 64. -/
def extendW (w : List Nat) : List Nat :=
  (List.range 48).foldl (fun acc _ =>
    acc ++ [(ssig1 (acc.getD (acc.length - 2) 0) + acc.getD (acc.length - 7) 0
      + ssig0 (acc.getD (acc.length - 15) 0)
      + acc.getD (acc.length - 16) 0) % 4294967296]) w

/-- The eight 32-bit working registers a..h of the compression loop. -/
def Regs : Type := Nat × Nat × Nat × Nat × Nat × Nat × Nat × Nat

def shaRound (st : Regs) (kw : Nat × Nat) : Regs :=
  match st with
  | (a, b, c, d, e, f, g, h) =>
    let t1 := (h + bsig1 e + shaCh e f g + kw.1 + kw.2) % 4294967296
    let t2 := (bsig0 a + shaMaj a b c) % 4294967296
    ((t1 + t2) % 4294967296, a, b, c, (d + t1) % 4294967296, e, f, g)

def shaCompress (h : List Nat) (block : List Nat) : List Nat :=
  let w := extendW (blockWords block)
  let st0 : Regs := (h.getD 0 0, h.getD 1 0, h.getD 2 0, h.getD 3 0,
    h.getD 4 0, h.getD 5 0, h.getD 6 0, h.getD 7 0)
  match (List.range 64).foldl
      (fun st i => shaRound st (shaK.getD i 0, w.getD i 0)) st0 with
  | (a, b, c, d, e, f, g, hh) =>
    [(h.getD 0 0 + a) % 4294967296, (h.getD 1 0 + b) % 4294967296,
     (h.getD 2 0 + c) % 4294967296, (h.getD 3 0 + d) % 4294967296,
     (h.getD 4 0 + e) % 4294967296, (h.getD 5 0 + f) % 4294967296,
     (h.getD 6 0 + g) % 4294967296, (h.getD 7 0 + hh) % 4294967296]

def shaH0 : List Nat :=
  [1779033703, 3144134277, 1013904242, 2773480762,
   1359893119, 2600822924, 528734635, 1541459225]

/-- The eight big-endian bytes of the 64-bit message bit length. -/
def beBytes8 (n : Nat) : List Nat :=
  [n / 72057594037927936 % 256, n / 281474976710656 % 256,
   n / 1099511627776 % 256, n / 4294967296 % 256, n / 16777216 % 256,
   n / 65536 % 256, n / 256 % 256, n % 256]

/-- FIPS 180-4 padding: append 0x80, zero bytes to 56 mod 64, then the
bit length as a 64-bit big-endian integer. -/
def shaPad (msg : List Nat) : List Nat :=
  msg ++ [128] ++ List.replicate ((64 - (msg.length + 9) % 64) % 64) 0
    ++ beBytes8 (8 * msg.length)

def chunks64 (l : List Nat) : List (List Nat) :=
  (List.range (l.length / 64)).map (fun i => (l.drop (64 * i)).take 64)

def wordBEBytes (w : Nat) : List Nat :=
  [w / 16777216 % 256, w / 65536 % 256, w / 256 % 256, w % 256]

/-- SHA-256 of a byte sequence, as a list of 32 bytes. -/
def sha256 (msg : List Nat) : List Nat :=
  (((chunks64 (shaPad msg)).foldl shaCompress shaH0).map wordBEBytes).flatten

/-- SHA-256 of the empty message (FIPS test vector). -/
theorem sha256_empty_vector :
    sha256 []
    = [227, 176, 196, 66, 152, 252, 28, 20, 154, 251, 244, 200, 153, 111,
       185, 36, 39, 174, 65, 228, 100, 155, 147, 76, 164, 149, 153, 27,
       120, 82, 184, 85] := by decide

/-- SHA-256 of the three bytes of the string abc (FIPS test vector). -/
theorem sha256_abc_vector :
    sha256 [97, 98, 99]
    = [186, 120, 22, 191, 143, 1, 207, 234, 65, 65, 64, 222, 93, 174, 34, 35,
       176, 3, 97, 163, 150, 23, 122, 156, 180, 16, 255, 97, 242, 0, 21,
       173] := by decide

/-! ## SHA-256 image check (src/pico_fota_bootloader.c lines 229-270) -/

/-- pfb_firmware_sha256_check. The withSha256Hashing flag is the
compile-time option PFB_WITH_SHA256_HASHING; with it off the whole body
is preprocessed away and the function returns 0. With it on, the
function rejects a size that is not a positive multiple of 256, hashes
the first firmware_size - 256 bytes of the DOWNLOAD region
(image_size_without_sha256 = firmware_size - 256 in the source), and
compares the digest with the 32 bytes at offset firmware_size - 32
(get_image_sha256_address). -/
def pfb_firmware_sha256_check (withSha256Hashing : Bool) (download : List Nat)
    (firmware_size : Nat) : Nat :=
  if withSha256Hashing then
    if firmware_size % PFB_ALIGN_SIZE ≠ 0 ∨ firmware_size < PFB_ALIGN_SIZE then
      1
    else
      let image_size_without_sha256 := firmware_size - 256
      let calculated_sha256 := sha256 (download.take image_size_without_sha256)
      let image_sha256 := (download.drop (firmware_size - 32)).take 32
      if calculated_sha256 ≠ image_sha256 then 1 else 0
  else 0

/-! ## Marker read/write helper lemmas -/

theorem readWordLE_overwrite_self {info : List Nat} {i d : Nat}
    (hinfo : info.length = FLASH_SECTOR_SIZE)
    (hi : 4 * i + 4 ≤ FLASH_SECTOR_SIZE) (hd : d < 4294967296) :
    readWordLE (overwrite_4_bytes_in_flash info i d) i = d := by
  rw [overwrite_4_bytes_eq hinfo hi]
  exact readWordLE_writeWordLE_self hd (by omega)

theorem readWordLE_overwrite_ne {info : List Nat} {i j d : Nat}
    (hinfo : info.length = FLASH_SECTOR_SIZE)
    (hi : 4 * i + 4 ≤ FLASH_SECTOR_SIZE) (hij : j ≠ i) :
    readWordLE (overwrite_4_bytes_in_flash info i d) j = readWordLE info j := by
  rw [overwrite_4_bytes_eq hinfo hi]
  exact readWordLE_writeWordLE_ne hij (by omega)

/-- Claim C5: every single-marker write through the info-sector codec
(overwrite_4_bytes_in_flash) leaves every byte of the INFO sector outside
the four written ones bitwise unchanged — in particular the other three
markers — for every prior content of the sector and every value written. -/
theorem C5_codec_preserves_other_bytes (info : List Nat) (i d : Nat)
    (hinfo : info.length = FLASH_SECTOR_SIZE)
    (hi : 4 * i + 4 ≤ FLASH_SECTOR_SIZE) :
    (∀ b, b < 4 * i ∨ 4 * i + 4 ≤ b →
      byteAt (overwrite_4_bytes_in_flash info i d) b = byteAt info b)
    ∧ ∀ j, j ≠ i →
      readWordLE (overwrite_4_bytes_in_flash info i d) j = readWordLE info j := by
  constructor
  · intro b hb
    rw [overwrite_4_bytes_eq hinfo hi]
    exact byteAt_writeWordLE_outside hb (by omega)
  · intro j hj
    exact readWordLE_overwrite_ne hinfo hi hj

/-- Claim C5 witness. -/
theorem C5_codec_preserves_other_bytes_witness :
    (List.replicate 4096 7 : List Nat).length = FLASH_SECTOR_SIZE
    ∧ byteAt (overwrite_4_bytes_in_flash (List.replicate 4096 7) 2 5) 1
      = byteAt (List.replicate 4096 7) 1 :=
  ⟨by rw [List.length_replicate, FLASH_SECTOR_SIZE], (C5_codec_preserves_other_bytes
    (List.replicate 4096 7) 2 5 (by rw [List.length_replicate, FLASH_SECTOR_SIZE]) (by decide)).1 1
    (Or.inl (by decide))⟩

/-- Claim C8: pfb_firmware_commit sets SHOULD_ROLLBACK to NO whatever its
prior value, changes no other marker word of the INFO sector, and is
idempotent: committing twice produces the same persistent state as once. -/
theorem C8_commit_clears_rollback_idempotent (info : List Nat)
    (hinfo : info.length = FLASH_SECTOR_SIZE) :
    readWordLE (pfb_firmware_commit info) INFO_SHOULD_ROLLBACK_IDX
      = PFB_SHOULD_NOT_ROLLBACK_MAGIC
    ∧ (∀ j, j ≠ INFO_SHOULD_ROLLBACK_IDX →
        readWordLE (pfb_firmware_commit info) j = readWordLE info j)
    ∧ pfb_firmware_commit (pfb_firmware_commit info) = pfb_firmware_commit info := by
  refine ⟨?_, ?_, ?_⟩
  · exact readWordLE_overwrite_self hinfo (by decide) (by decide)
  · intro j hj
    exact readWordLE_overwrite_ne hinfo (by decide) hj
  · show overwrite_4_bytes_in_flash (overwrite_4_bytes_in_flash info
      INFO_SHOULD_ROLLBACK_IDX 0) INFO_SHOULD_ROLLBACK_IDX 0
      = overwrite_4_bytes_in_flash info INFO_SHOULD_ROLLBACK_IDX 0
    have houter : (overwrite_4_bytes_in_flash info INFO_SHOULD_ROLLBACK_IDX 0).length
        = FLASH_SECTOR_SIZE := overwrite_length hinfo (by decide)
    rw [overwrite_4_bytes_eq houter (by decide),
      overwrite_4_bytes_eq hinfo (by decide)]
    exact writeAt_writeAt_same rfl (by rw [hinfo]; decide)

/-- Claim C8 witness. -/
theorem C8_commit_clears_rollback_idempotent_witness :
    (List.replicate 4096 9 : List Nat).length = FLASH_SECTOR_SIZE
    ∧ readWordLE (pfb_firmware_commit (List.replicate 4096 9))
        INFO_SHOULD_ROLLBACK_IDX = PFB_SHOULD_NOT_ROLLBACK_MAGIC :=
  ⟨by rw [List.length_replicate, FLASH_SECTOR_SIZE], (C8_commit_clears_rollback_idempotent
    (List.replicate 4096 9) (by rw [List.length_replicate, FLASH_SECTOR_SIZE])).1⟩

/-- Claim C9: with the SHA-256 hashing plugin compiled out
(PFB_WITH_SHA256_HASHING undefined), pfb_firmware_sha256_check returns 0
for every firmware size — also for sizes that are not multiples of 256,
or smaller than 256 — performing no size validation at all. -/
theorem C9_check_without_hashing_always_zero (download : List Nat)
    (firmware_size : Nat) :
    pfb_firmware_sha256_check false download firmware_size = 0 := rfl

/-! ## Flash write: accepted zero-length calls and the overflow defect -/

/-- Claim C10: a zero-length write at any 256-aligned offset at most the
swap space length is accepted: pfb_write_to_flash_aligned_256_bytes
returns 0 and programs nothing (for such inputs the size_t sum cannot
wrap past the bound). -/
theorem C10_zero_length_write_accepted
    (swap_space_length download_slot_xip : Nat) (flash src : List Nat)
    (offset : Nat) (h1 : offset % 256 = 0) (h2 : offset ≤ swap_space_length) :
    pfb_write_to_flash_aligned_256_bytes swap_space_length download_slot_xip
      flash src offset 0 = (0, flash) := by
  rw [pfb_write_to_flash_aligned_256_bytes, if_neg (by
    show ¬(0 % PFB_ALIGN_SIZE ≠ 0 ∨ offset % PFB_ALIGN_SIZE ≠ 0
      ∨ (offset + 0) % 4294967296 > swap_space_length)
    have halign : PFB_ALIGN_SIZE = 256 := rfl
    rw [halign]
    push_neg
    refine ⟨by omega, by omega, ?_⟩
    have := Nat.mod_le (offset + 0) 4294967296
    omega)]
  rfl

/-- Claim C10 witness. -/
theorem C10_zero_length_write_accepted_witness :
    (256 % 256 = 0 ∧ 256 ≤ 4096)
    ∧ pfb_write_to_flash_aligned_256_bytes 4096 0 [1, 2, 3] [4, 5] 256 0
      = (0, [1, 2, 3]) :=
  ⟨⟨by decide, by decide⟩,
    C10_zero_length_write_accepted 4096 0 [1, 2, 3] [4, 5] 256 (by decide)
      (by decide)⟩

/-- A demonstration flash for the overflow defect of the bound check:
256 bytes of flash below the DOWNLOAD slot, then a one-sector DOWNLOAD
slot (SWAP_LEN = 4096), everything erased (0xFF). -/
def overflowDemoFlash : List Nat := List.replicate 4352 255

/-- Claim C4 (code bug, failing input): offset_bytes = 0xFFFFFF00 and
len_bytes = 0x200 are multiples of 256 and their mathematical sum
exceeds SWAP_LEN = 4096, so the claim, like the contract documented at
include/pico_fota_bootloader.h lines 70-72, requires a non-zero return
and no flash mutation; but the 32-bit size_t sum wraps to 0x100, at most
4096, the call is accepted, returns 0, and its wrapped uint32
destination addresses program the page below the DOWNLOAD slot: byte 0
of the flash, 256 bytes below the slot, changes from 255 to 0. -/
theorem C4_write_overflow_accepted_and_programs_outside :
    4294967040 % 256 = 0 ∧ 512 % 256 = 0 ∧ 4096 < 4294967040 + 512
    ∧ (pfb_write_to_flash_aligned_256_bytes 4096 256 overflowDemoFlash
        (List.replicate 512 0) 4294967040 512).1 = 0
    ∧ byteAt (pfb_write_to_flash_aligned_256_bytes 4096 256 overflowDemoFlash
        (List.replicate 512 0) 4294967040 512).2 0 = 0
    ∧ byteAt overflowDemoFlash 0 = 255 := by decide

/-! ## Swap engine correctness -/

theorem writeAt_append_at {u v b : List Nat} {m : Nat} (hu : u.length = m) :
    writeAt (u ++ v) m b = u ++ b ++ v.drop b.length := by
  show (u ++ v).take m ++ b ++ (u ++ v).drop (m + b.length) = _
  rw [List.take_left' hu, ← List.drop_drop b.length m, List.drop_left' hu]

theorem swap_exchange_component {P Q : List Nat} {k n : Nat}
    (hP : P.length = n * 4096) (hQ : Q.length = n * 4096) (hk : k < n) :
    writeAt (writeAt (P.take (k * 4096) ++ Q.drop (k * 4096)) (k * 4096)
        erasedSector) (k * 4096) ((P.drop (k * 4096)).take 4096)
      = P.take (k * 4096 + 4096) ++ Q.drop (k * 4096 + 4096) := by
  have hkS : k * 4096 + 4096 ≤ n * 4096 := by
    have h1 : (k + 1) * 4096 ≤ n * 4096 := Nat.mul_le_mul_right _ hk
    have h2 : (k + 1) * 4096 = k * 4096 + 4096 := Nat.succ_mul k 4096
    omega
  have herased : erasedSector.length = 4096 := by
    rw [erasedSector, List.length_replicate]
    rfl
  have hsecP : ((P.drop (k * 4096)).take 4096).length = 4096 := by
    rw [List.length_take, List.length_drop]
    omega
  have htakeP : (P.take (k * 4096)).length = k * 4096 := by
    rw [List.length_take]
    omega
  have hreglen : (P.take (k * 4096) ++ Q.drop (k * 4096)).length = n * 4096 := by
    rw [List.length_append, htakeP, List.length_drop]
    omega
  rw [writeAt_writeAt_same (herased.trans hsecP.symm)
    (by rw [hreglen, herased]; omega)]
  rw [writeAt_append_at htakeP, hsecP, List.drop_drop, ← List.take_add]

theorem swapStep_exchange {x y : List Nat} {k n : Nat}
    (hx : x.length = n * 4096) (hy : y.length = n * 4096) (hk : k < n) :
    swapStep (y.take (k * 4096) ++ x.drop (k * 4096),
              x.take (k * 4096) ++ y.drop (k * 4096)) k
      = (y.take ((k + 1) * 4096) ++ x.drop ((k + 1) * 4096),
         x.take ((k + 1) * 4096) ++ y.drop ((k + 1) * 4096)) := by
  have hsec : FLASH_SECTOR_SIZE = 4096 := rfl
  have htakex : (x.take (k * 4096)).length = k * 4096 := by
    rw [List.length_take]
    have : (k + 1) * 4096 ≤ n * 4096 := Nat.mul_le_mul_right _ hk
    have h2 : (k + 1) * 4096 = k * 4096 + 4096 := Nat.succ_mul k 4096
    omega
  have htakey : (y.take (k * 4096)).length = k * 4096 := by
    rw [List.length_take]
    have : (k + 1) * 4096 ≤ n * 4096 := Nat.mul_le_mul_right _ hk
    have h2 : (k + 1) * 4096 = k * 4096 + 4096 := Nat.succ_mul k 4096
    omega
  have hmul : (k + 1) * 4096 = k * 4096 + 4096 := Nat.succ_mul k 4096
  rw [swapStep]
  simp only [sectorAt, hsec]
  rw [List.drop_left' htakex, List.drop_left' htakey, hmul]
  rw [swap_exchange_component hy hx hk, swap_exchange_component hx hy hk]

theorem swap_loop_spec {app dl : List Nat} {n : Nat}
    (ha : app.length = n * 4096) (hd : dl.length = n * 4096) :
    ∀ k, k ≤ n →
      (List.range k).foldl swapStep (app, dl)
        = (dl.take (k * 4096) ++ app.drop (k * 4096),
           app.take (k * 4096) ++ dl.drop (k * 4096)) := by
  intro k
  induction k with
  | zero =>
      intro _
      simp
  | succ k ih =>
      intro hk
      rw [List.range_succ, List.foldl_append, ih (by omega)]
      simp only [List.foldl_cons, List.foldl_nil]
      exact swapStep_exchange ha hd (by omega)

theorem swap_images_spec {app dl : List Nat} {n : Nat}
    (ha : app.length = n * FLASH_SECTOR_SIZE)
    (hd : dl.length = n * FLASH_SECTOR_SIZE) :
    swap_images n app dl = (dl, app) := by
  have hsec : FLASH_SECTOR_SIZE = 4096 := rfl
  rw [hsec] at ha hd
  rw [swap_images, swap_loop_spec ha hd n le_rfl]
  have h1 : dl.take (n * 4096) = dl := by rw [← hd]; exact List.take_length dl
  have h2 : app.drop (n * 4096) = [] := by rw [← ha]; exact List.drop_length app
  have h3 : app.take (n * 4096) = app := by rw [← ha]; exact List.take_length app
  have h4 : dl.drop (n * 4096) = [] := by rw [← hd]; exact List.drop_length dl
  rw [h1, h2, h3, h4, List.append_nil, List.append_nil]

/-- Claim C7: swap_images exchanges the contents of the APP and DOWNLOAD
regions sector by sector, and running the swap twice restores both
regions to their original contents. -/
theorem C7_swap_exchanges_and_involutive (n : Nat) (app download : List Nat)
    (ha : app.length = n * FLASH_SECTOR_SIZE)
    (hd : download.length = n * FLASH_SECTOR_SIZE) :
    swap_images n app download = (download, app)
    ∧ swap_images n (swap_images n app download).1
        (swap_images n app download).2 = (app, download) := by
  have h1 := swap_images_spec ha hd
  refine ⟨h1, ?_⟩
  rw [h1]
  exact swap_images_spec hd ha

/-- Claim C7 witness (one-sector regions). -/
theorem C7_swap_exchanges_and_involutive_witness :
    (List.replicate 4096 1 : List Nat).length = 1 * FLASH_SECTOR_SIZE
    ∧ swap_images 1 (List.replicate 4096 1) (List.replicate 4096 2)
      = (List.replicate 4096 2, List.replicate 4096 1) :=
  ⟨by rw [List.length_replicate, Nat.one_mul, FLASH_SECTOR_SIZE],
   (C7_swap_exchanges_and_involutive 1 (List.replicate 4096 1)
     (List.replicate 4096 2)
     (by rw [List.length_replicate, Nat.one_mul, FLASH_SECTOR_SIZE])
     (by rw [List.length_replicate, Nat.one_mul, FLASH_SECTOR_SIZE])).1⟩

/-! ## Boot dispatcher branch analysis -/

theorem should_rollback_true_iff {info : List Nat} :
    pfb_should_rollback info = true
      ↔ readWordLE info INFO_SHOULD_ROLLBACK_IDX = PFB_SHOULD_ROLLBACK_MAGIC := by
  simp [pfb_should_rollback]

theorem should_rollback_false_iff {info : List Nat} :
    pfb_should_rollback info = false
      ↔ readWordLE info INFO_SHOULD_ROLLBACK_IDX ≠ PFB_SHOULD_ROLLBACK_MAGIC := by
  simp [pfb_should_rollback]

theorem has_firmware_true_iff {info : List Nat} :
    pfb_has_firmware_to_swap info = true
      ↔ readWordLE info INFO_IS_DOWNLOAD_SLOT_VALID_IDX = PFB_SHOULD_SWAP_MAGIC := by
  simp [pfb_has_firmware_to_swap]

theorem has_firmware_false_iff {info : List Nat} :
    pfb_has_firmware_to_swap info = false
      ↔ readWordLE info INFO_IS_DOWNLOAD_SLOT_VALID_IDX ≠ PFB_SHOULD_SWAP_MAGIC := by
  simp [pfb_has_firmware_to_swap]

theorem bootStep_rollback_branch {n : Nat} {s : PfbState}
    (hr : pfb_should_rollback s.info = true) :
    bootStep n s = PfbState.mk (swap_images n s.app s.download).1
      (swap_images n s.app s.download).2
      (pfb_mark_download_slot_as_invalid (pfb_mark_is_after_rollback
        (pfb_mark_pico_has_no_new_firmware (pfb_firmware_commit s.info)))) := by
  rw [bootStep, if_pos hr]

theorem bootStep_activation_branch {n : Nat} {s : PfbState}
    (hr : pfb_should_rollback s.info = false)
    (hv : pfb_has_firmware_to_swap s.info = true) :
    bootStep n s = PfbState.mk (swap_images n s.app s.download).1
      (swap_images n s.app s.download).2
      (pfb_mark_download_slot_as_invalid (pfb_mark_should_rollback
        (pfb_mark_is_not_after_rollback
          (pfb_mark_pico_has_new_firmware s.info)))) := by
  rw [bootStep, if_neg (by simp [hr]), if_pos hv]

theorem bootStep_plain_branch {n : Nat} {s : PfbState}
    (hr : pfb_should_rollback s.info = false)
    (hv : pfb_has_firmware_to_swap s.info = false) :
    bootStep n s = PfbState.mk s.app s.download
      (pfb_mark_download_slot_as_invalid
        (pfb_mark_pico_has_no_new_firmware (pfb_firmware_commit s.info))) := by
  rw [bootStep, if_neg (by simp [hr]), if_neg (by simp [hv])]

/-- Marker values after the rollback branch rewrote the INFO sector. -/
theorem rollback_chain_markers {info : List Nat}
    (hI : info.length = FLASH_SECTOR_SIZE) :
    readWordLE (pfb_mark_download_slot_as_invalid (pfb_mark_is_after_rollback
        (pfb_mark_pico_has_no_new_firmware (pfb_firmware_commit info))))
      INFO_SHOULD_ROLLBACK_IDX = PFB_SHOULD_NOT_ROLLBACK_MAGIC
    ∧ readWordLE (pfb_mark_download_slot_as_invalid (pfb_mark_is_after_rollback
        (pfb_mark_pico_has_no_new_firmware (pfb_firmware_commit info))))
      INFO_IS_FIRMWARE_SWAPPED_IDX = PFB_NO_NEW_FIRMWARE_MAGIC
    ∧ readWordLE (pfb_mark_download_slot_as_invalid (pfb_mark_is_after_rollback
        (pfb_mark_pico_has_no_new_firmware (pfb_firmware_commit info))))
      INFO_IS_AFTER_ROLLBACK_IDX = PFB_IS_AFTER_ROLLBACK_MAGIC
    ∧ readWordLE (pfb_mark_download_slot_as_invalid (pfb_mark_is_after_rollback
        (pfb_mark_pico_has_no_new_firmware (pfb_firmware_commit info))))
      INFO_IS_DOWNLOAD_SLOT_VALID_IDX = PFB_SHOULD_NOT_SWAP_MAGIC
    ∧ (pfb_mark_download_slot_as_invalid (pfb_mark_is_after_rollback
        (pfb_mark_pico_has_no_new_firmware (pfb_firmware_commit info)))).length
      = FLASH_SECTOR_SIZE := by
  have hL1 : (pfb_firmware_commit info).length = FLASH_SECTOR_SIZE :=
    overwrite_length hI (by decide)
  have hL2 : (pfb_mark_pico_has_no_new_firmware
      (pfb_firmware_commit info)).length = FLASH_SECTOR_SIZE :=
    overwrite_length hL1 (by decide)
  have hL3 : (pfb_mark_is_after_rollback (pfb_mark_pico_has_no_new_firmware
      (pfb_firmware_commit info))).length = FLASH_SECTOR_SIZE :=
    overwrite_length hL2 (by decide)
  refine ⟨?_, ?_, ?_, ?_, overwrite_length hL3 (by decide)⟩
  · calc readWordLE _ INFO_SHOULD_ROLLBACK_IDX
        = readWordLE (pfb_mark_is_after_rollback (pfb_mark_pico_has_no_new_firmware
            (pfb_firmware_commit info))) INFO_SHOULD_ROLLBACK_IDX :=
          readWordLE_overwrite_ne hL3 (by decide) (by decide)
      _ = readWordLE (pfb_mark_pico_has_no_new_firmware
            (pfb_firmware_commit info)) INFO_SHOULD_ROLLBACK_IDX :=
          readWordLE_overwrite_ne hL2 (by decide) (by decide)
      _ = readWordLE (pfb_firmware_commit info) INFO_SHOULD_ROLLBACK_IDX :=
          readWordLE_overwrite_ne hL1 (by decide) (by decide)
      _ = PFB_SHOULD_NOT_ROLLBACK_MAGIC :=
          readWordLE_overwrite_self hI (by decide) (by decide)
  · calc readWordLE _ INFO_IS_FIRMWARE_SWAPPED_IDX
        = readWordLE (pfb_mark_is_after_rollback (pfb_mark_pico_has_no_new_firmware
            (pfb_firmware_commit info))) INFO_IS_FIRMWARE_SWAPPED_IDX :=
          readWordLE_overwrite_ne hL3 (by decide) (by decide)
      _ = readWordLE (pfb_mark_pico_has_no_new_firmware
            (pfb_firmware_commit info)) INFO_IS_FIRMWARE_SWAPPED_IDX :=
          readWordLE_overwrite_ne hL2 (by decide) (by decide)
      _ = PFB_NO_NEW_FIRMWARE_MAGIC :=
          readWordLE_overwrite_self hL1 (by decide) (by decide)
  · calc readWordLE _ INFO_IS_AFTER_ROLLBACK_IDX
        = readWordLE (pfb_mark_is_after_rollback (pfb_mark_pico_has_no_new_firmware
            (pfb_firmware_commit info))) INFO_IS_AFTER_ROLLBACK_IDX :=
          readWordLE_overwrite_ne hL3 (by decide) (by decide)
      _ = PFB_IS_AFTER_ROLLBACK_MAGIC :=
          readWordLE_overwrite_self hL2 (by decide) (by decide)
  · exact readWordLE_overwrite_self hL3 (by decide) (by decide)

/-- Marker values after the activation branch rewrote the INFO sector. -/
theorem activation_chain_markers {info : List Nat}
    (hI : info.length = FLASH_SECTOR_SIZE) :
    readWordLE (pfb_mark_download_slot_as_invalid (pfb_mark_should_rollback
        (pfb_mark_is_not_after_rollback (pfb_mark_pico_has_new_firmware info))))
      INFO_IS_FIRMWARE_SWAPPED_IDX = PFB_HAS_NEW_FIRMWARE_MAGIC
    ∧ readWordLE (pfb_mark_download_slot_as_invalid (pfb_mark_should_rollback
        (pfb_mark_is_not_after_rollback (pfb_mark_pico_has_new_firmware info))))
      INFO_IS_AFTER_ROLLBACK_IDX = PFB_IS_NOT_AFTER_ROLLBACK_MAGIC
    ∧ readWordLE (pfb_mark_download_slot_as_invalid (pfb_mark_should_rollback
        (pfb_mark_is_not_after_rollback (pfb_mark_pico_has_new_firmware info))))
      INFO_SHOULD_ROLLBACK_IDX = PFB_SHOULD_ROLLBACK_MAGIC
    ∧ readWordLE (pfb_mark_download_slot_as_invalid (pfb_mark_should_rollback
        (pfb_mark_is_not_after_rollback (pfb_mark_pico_has_new_firmware info))))
      INFO_IS_DOWNLOAD_SLOT_VALID_IDX = PFB_SHOULD_NOT_SWAP_MAGIC
    ∧ (pfb_mark_download_slot_as_invalid (pfb_mark_should_rollback
        (pfb_mark_is_not_after_rollback
          (pfb_mark_pico_has_new_firmware info)))).length = FLASH_SECTOR_SIZE := by
  have hL1 : (pfb_mark_pico_has_new_firmware info).length = FLASH_SECTOR_SIZE :=
    overwrite_length hI (by decide)
  have hL2 : (pfb_mark_is_not_after_rollback
      (pfb_mark_pico_has_new_firmware info)).length = FLASH_SECTOR_SIZE :=
    overwrite_length hL1 (by decide)
  have hL3 : (pfb_mark_should_rollback (pfb_mark_is_not_after_rollback
      (pfb_mark_pico_has_new_firmware info))).length = FLASH_SECTOR_SIZE :=
    overwrite_length hL2 (by decide)
  refine ⟨?_, ?_, ?_, ?_, overwrite_length hL3 (by decide)⟩
  · calc readWordLE _ INFO_IS_FIRMWARE_SWAPPED_IDX
        = readWordLE (pfb_mark_should_rollback (pfb_mark_is_not_after_rollback
            (pfb_mark_pico_has_new_firmware info))) INFO_IS_FIRMWARE_SWAPPED_IDX :=
          readWordLE_overwrite_ne hL3 (by decide) (by decide)
      _ = readWordLE (pfb_mark_is_not_after_rollback
            (pfb_mark_pico_has_new_firmware info)) INFO_IS_FIRMWARE_SWAPPED_IDX :=
          readWordLE_overwrite_ne hL2 (by decide) (by decide)
      _ = readWordLE (pfb_mark_pico_has_new_firmware info)
            INFO_IS_FIRMWARE_SWAPPED_IDX :=
          readWordLE_overwrite_ne hL1 (by decide) (by decide)
      _ = PFB_HAS_NEW_FIRMWARE_MAGIC :=
          readWordLE_overwrite_self hI (by decide) (by decide)
  · calc readWordLE _ INFO_IS_AFTER_ROLLBACK_IDX
        = readWordLE (pfb_mark_should_rollback (pfb_mark_is_not_after_rollback
            (pfb_mark_pico_has_new_firmware info))) INFO_IS_AFTER_ROLLBACK_IDX :=
          readWordLE_overwrite_ne hL3 (by decide) (by decide)
      _ = readWordLE (pfb_mark_is_not_after_rollback
            (pfb_mark_pico_has_new_firmware info)) INFO_IS_AFTER_ROLLBACK_IDX :=
          readWordLE_overwrite_ne hL2 (by decide) (by decide)
      _ = PFB_IS_NOT_AFTER_ROLLBACK_MAGIC :=
          readWordLE_overwrite_self hL1 (by decide) (by decide)
  · calc readWordLE _ INFO_SHOULD_ROLLBACK_IDX
        = readWordLE (pfb_mark_should_rollback (pfb_mark_is_not_after_rollback
            (pfb_mark_pico_has_new_firmware info))) INFO_SHOULD_ROLLBACK_IDX :=
          readWordLE_overwrite_ne hL3 (by decide) (by decide)
      _ = PFB_SHOULD_ROLLBACK_MAGIC :=
          readWordLE_overwrite_self hL2 (by decide) (by decide)
  · exact readWordLE_overwrite_self hL3 (by decide) (by decide)

/-- Marker values after the plain branch rewrote the INFO sector; the
IS_AFTER_ROLLBACK marker keeps its previous value. -/
theorem plain_chain_markers {info : List Nat}
    (hI : info.length = FLASH_SECTOR_SIZE) :
    readWordLE (pfb_mark_download_slot_as_invalid
        (pfb_mark_pico_has_no_new_firmware (pfb_firmware_commit info)))
      INFO_SHOULD_ROLLBACK_IDX = PFB_SHOULD_NOT_ROLLBACK_MAGIC
    ∧ readWordLE (pfb_mark_download_slot_as_invalid
        (pfb_mark_pico_has_no_new_firmware (pfb_firmware_commit info)))
      INFO_IS_FIRMWARE_SWAPPED_IDX = PFB_NO_NEW_FIRMWARE_MAGIC
    ∧ readWordLE (pfb_mark_download_slot_as_invalid
        (pfb_mark_pico_has_no_new_firmware (pfb_firmware_commit info)))
      INFO_IS_DOWNLOAD_SLOT_VALID_IDX = PFB_SHOULD_NOT_SWAP_MAGIC
    ∧ readWordLE (pfb_mark_download_slot_as_invalid
        (pfb_mark_pico_has_no_new_firmware (pfb_firmware_commit info)))
      INFO_IS_AFTER_ROLLBACK_IDX = readWordLE info INFO_IS_AFTER_ROLLBACK_IDX
    ∧ (pfb_mark_download_slot_as_invalid (pfb_mark_pico_has_no_new_firmware
        (pfb_firmware_commit info))).length = FLASH_SECTOR_SIZE := by
  have hL1 : (pfb_firmware_commit info).length = FLASH_SECTOR_SIZE :=
    overwrite_length hI (by decide)
  have hL2 : (pfb_mark_pico_has_no_new_firmware
      (pfb_firmware_commit info)).length = FLASH_SECTOR_SIZE :=
    overwrite_length hL1 (by decide)
  refine ⟨?_, ?_, ?_, ?_, overwrite_length hL2 (by decide)⟩
  · calc readWordLE _ INFO_SHOULD_ROLLBACK_IDX
        = readWordLE (pfb_mark_pico_has_no_new_firmware
            (pfb_firmware_commit info)) INFO_SHOULD_ROLLBACK_IDX :=
          readWordLE_overwrite_ne hL2 (by decide) (by decide)
      _ = readWordLE (pfb_firmware_commit info) INFO_SHOULD_ROLLBACK_IDX :=
          readWordLE_overwrite_ne hL1 (by decide) (by decide)
      _ = PFB_SHOULD_NOT_ROLLBACK_MAGIC :=
          readWordLE_overwrite_self hI (by decide) (by decide)
  · calc readWordLE _ INFO_IS_FIRMWARE_SWAPPED_IDX
        = readWordLE (pfb_mark_pico_has_no_new_firmware
            (pfb_firmware_commit info)) INFO_IS_FIRMWARE_SWAPPED_IDX :=
          readWordLE_overwrite_ne hL2 (by decide) (by decide)
      _ = PFB_NO_NEW_FIRMWARE_MAGIC :=
          readWordLE_overwrite_self hL1 (by decide) (by decide)
  · exact readWordLE_overwrite_self hL2 (by decide) (by decide)
  · calc readWordLE _ INFO_IS_AFTER_ROLLBACK_IDX
        = readWordLE (pfb_mark_pico_has_no_new_firmware
            (pfb_firmware_commit info)) INFO_IS_AFTER_ROLLBACK_IDX :=
          readWordLE_overwrite_ne hL2 (by decide) (by decide)
      _ = readWordLE (pfb_firmware_commit info) INFO_IS_AFTER_ROLLBACK_IDX :=
          readWordLE_overwrite_ne hL1 (by decide) (by decide)
      _ = readWordLE info INFO_IS_AFTER_ROLLBACK_IDX :=
          readWordLE_overwrite_ne hI (by decide) (by decide)

/-- Claim C2: at every boot the dispatcher evaluates the markers in the
priority order rollback > new image > nothing. If SHOULD_ROLLBACK reads
YES it swaps, commits, sets FIRMWARE_SWAPPED to OLD and IS_AFTER_ROLLBACK
to YES; else if DOWNLOAD_VALID reads SWAP it swaps, sets FIRMWARE_SWAPPED
to NEW, IS_AFTER_ROLLBACK to NO and SHOULD_ROLLBACK to YES; else (any
other marker combination) it takes the plain-boot branch: commit and
FIRMWARE_SWAPPED to OLD, regions untouched. In every branch
DOWNLOAD_VALID ends up NOSWAP. -/
theorem C2_dispatch_priority (n : Nat) (s : PfbState) (hwf : Wf n s) :
    (readWordLE s.info INFO_SHOULD_ROLLBACK_IDX = PFB_SHOULD_ROLLBACK_MAGIC →
      (bootStep n s).app = s.download ∧ (bootStep n s).download = s.app
      ∧ readWordLE (bootStep n s).info INFO_SHOULD_ROLLBACK_IDX
          = PFB_SHOULD_NOT_ROLLBACK_MAGIC
      ∧ readWordLE (bootStep n s).info INFO_IS_FIRMWARE_SWAPPED_IDX
          = PFB_NO_NEW_FIRMWARE_MAGIC
      ∧ readWordLE (bootStep n s).info INFO_IS_AFTER_ROLLBACK_IDX
          = PFB_IS_AFTER_ROLLBACK_MAGIC
      ∧ readWordLE (bootStep n s).info INFO_IS_DOWNLOAD_SLOT_VALID_IDX
          = PFB_SHOULD_NOT_SWAP_MAGIC)
    ∧ (readWordLE s.info INFO_SHOULD_ROLLBACK_IDX ≠ PFB_SHOULD_ROLLBACK_MAGIC →
       readWordLE s.info INFO_IS_DOWNLOAD_SLOT_VALID_IDX = PFB_SHOULD_SWAP_MAGIC →
      (bootStep n s).app = s.download ∧ (bootStep n s).download = s.app
      ∧ readWordLE (bootStep n s).info INFO_IS_FIRMWARE_SWAPPED_IDX
          = PFB_HAS_NEW_FIRMWARE_MAGIC
      ∧ readWordLE (bootStep n s).info INFO_IS_AFTER_ROLLBACK_IDX
          = PFB_IS_NOT_AFTER_ROLLBACK_MAGIC
      ∧ readWordLE (bootStep n s).info INFO_SHOULD_ROLLBACK_IDX
          = PFB_SHOULD_ROLLBACK_MAGIC
      ∧ readWordLE (bootStep n s).info INFO_IS_DOWNLOAD_SLOT_VALID_IDX
          = PFB_SHOULD_NOT_SWAP_MAGIC)
    ∧ (readWordLE s.info INFO_SHOULD_ROLLBACK_IDX ≠ PFB_SHOULD_ROLLBACK_MAGIC →
       readWordLE s.info INFO_IS_DOWNLOAD_SLOT_VALID_IDX ≠ PFB_SHOULD_SWAP_MAGIC →
      (bootStep n s).app = s.app ∧ (bootStep n s).download = s.download
      ∧ readWordLE (bootStep n s).info INFO_SHOULD_ROLLBACK_IDX
          = PFB_SHOULD_NOT_ROLLBACK_MAGIC
      ∧ readWordLE (bootStep n s).info INFO_IS_FIRMWARE_SWAPPED_IDX
          = PFB_NO_NEW_FIRMWARE_MAGIC
      ∧ readWordLE (bootStep n s).info INFO_IS_DOWNLOAD_SLOT_VALID_IDX
          = PFB_SHOULD_NOT_SWAP_MAGIC
      ∧ readWordLE (bootStep n s).info INFO_IS_AFTER_ROLLBACK_IDX
          = readWordLE s.info INFO_IS_AFTER_ROLLBACK_IDX) := by
  obtain ⟨hA, hD, hI⟩ := hwf
  refine ⟨?_, ?_, ?_⟩
  · intro hr
    have hb : pfb_should_rollback s.info = true := should_rollback_true_iff.mpr hr
    rw [bootStep_rollback_branch hb]
    have hswap := swap_images_spec hA hD
    obtain ⟨m1, m2, m3, m4, -⟩ := rollback_chain_markers hI
    exact ⟨by rw [hswap], by rw [hswap], m1, m2, m3, m4⟩
  · intro hr hv
    have hb : pfb_should_rollback s.info = false := should_rollback_false_iff.mpr hr
    have hb2 : pfb_has_firmware_to_swap s.info = true := has_firmware_true_iff.mpr hv
    rw [bootStep_activation_branch hb hb2]
    have hswap := swap_images_spec hA hD
    obtain ⟨m1, m2, m3, m4, -⟩ := activation_chain_markers hI
    exact ⟨by rw [hswap], by rw [hswap], m1, m2, m3, m4⟩
  · intro hr hv
    have hb : pfb_should_rollback s.info = false := should_rollback_false_iff.mpr hr
    have hb2 : pfb_has_firmware_to_swap s.info = false := has_firmware_false_iff.mpr hv
    rw [bootStep_plain_branch hb hb2]
    obtain ⟨m1, m2, m3, m4, -⟩ := plain_chain_markers hI
    exact ⟨rfl, rfl, m1, m2, m3, m4⟩

/-- Claim C2 witness (plain boot on an all-zero INFO sector). -/
theorem C2_dispatch_priority_witness :
    Wf 0 (PfbState.mk [] [] (List.replicate 4096 0))
    ∧ readWordLE (bootStep 0 (PfbState.mk [] [] (List.replicate 4096 0))).info
        INFO_SHOULD_ROLLBACK_IDX = PFB_SHOULD_NOT_ROLLBACK_MAGIC :=
  ⟨⟨by decide, by decide, by rw [List.length_replicate, FLASH_SECTOR_SIZE]⟩,
   ((C2_dispatch_priority 0 (PfbState.mk [] [] (List.replicate 4096 0))
      ⟨by decide, by decide, by rw [List.length_replicate, FLASH_SECTOR_SIZE]⟩).2.2
      (by decide) (by decide)).2.2.1⟩

/-- Claim C6: whichever branch the dispatcher takes, the DOWNLOAD_VALID
marker reads NOSWAP after the boot completes. -/
theorem C6_download_valid_cleared_every_boot (n : Nat) (s : PfbState)
    (hwf : Wf n s) :
    readWordLE (bootStep n s).info INFO_IS_DOWNLOAD_SLOT_VALID_IDX
      = PFB_SHOULD_NOT_SWAP_MAGIC := by
  obtain ⟨hA, hD, hI⟩ := hwf
  cases hb : pfb_should_rollback s.info with
  | true =>
      rw [bootStep_rollback_branch hb]
      exact (rollback_chain_markers hI).2.2.2.1
  | false =>
      cases hv : pfb_has_firmware_to_swap s.info with
      | true =>
          rw [bootStep_activation_branch hb hv]
          exact (activation_chain_markers hI).2.2.2.1
      | false =>
          rw [bootStep_plain_branch hb hv]
          exact (plain_chain_markers hI).2.2.1

/-- Claim C6 witness. -/
theorem C6_download_valid_cleared_every_boot_witness :
    Wf 0 (PfbState.mk [] [] (List.replicate 4096 3))
    ∧ readWordLE (bootStep 0 (PfbState.mk [] [] (List.replicate 4096 3))).info
        INFO_IS_DOWNLOAD_SLOT_VALID_IDX = PFB_SHOULD_NOT_SWAP_MAGIC :=
  ⟨⟨by decide, by decide, by rw [List.length_replicate, FLASH_SECTOR_SIZE]⟩,
   C6_download_valid_cleared_every_boot 0 (PfbState.mk [] [] (List.replicate 4096 3))
     ⟨by decide, by decide, by rw [List.length_replicate, FLASH_SECTOR_SIZE]⟩⟩

/-! ## The overflow defect defeats the rollback guarantee -/

/-- Modelled from the spec: a concrete instance of the linker memory map
(linker_definitions.h is not under src/) with the one-sector INFO
partition lying 4096 bytes below the DOWNLOAD slot, following the
spec's region order INFO, APP, DOWNLOAD. The flash below is that INFO
sector followed by a one-sector DOWNLOAD slot (SWAP_LEN = 4096), with
SHOULD_ROLLBACK armed exactly as it is right after an activation boot
and every other byte erased. -/
def armedFlash : List Nat :=
  writeWordLE (List.replicate 8192 255) INFO_SHOULD_ROLLBACK_IDX
    PFB_SHOULD_ROLLBACK_MAGIC

/-- Claim C1 (code bug, failing execution): with SHOULD_ROLLBACK armed
after an activation boot, the single commit-free call
pfb_write_to_flash_aligned_256_bytes(zeros, 2^32 - 4096, 4096) passes
the size_t-wrapped bound check, since (offset + len) mod 2^32 = 0, and
its wrapped uint32 destination addresses cover the INFO sector,
programming zeros over it: afterwards the INFO sector reads
SHOULD_ROLLBACK = NO and DOWNLOAD_VALID = NOSWAP although
pfb_firmware_commit was never called, so the next boot takes the plain
branch (bootStep_plain_branch) instead of the rollback branch the claim
promises, and pfb_is_after_rollback() stays false. -/
theorem C1_write_overflow_defeats_rollback :
    readWordLE armedFlash INFO_SHOULD_ROLLBACK_IDX = PFB_SHOULD_ROLLBACK_MAGIC
    ∧ 4294963200 % 256 = 0 ∧ 4096 % 256 = 0
    ∧ (pfb_write_to_flash_aligned_256_bytes 4096 4096 armedFlash
        (List.replicate 4096 0) 4294963200 4096).1 = 0
    ∧ pfb_should_rollback ((pfb_write_to_flash_aligned_256_bytes 4096 4096
        armedFlash (List.replicate 4096 0) 4294963200 4096).2.take
          FLASH_SECTOR_SIZE) = false
    ∧ pfb_has_firmware_to_swap ((pfb_write_to_flash_aligned_256_bytes 4096 4096
        armedFlash (List.replicate 4096 0) 4294963200 4096).2.take
          FLASH_SECTOR_SIZE) = false := by decide

/-! ## SHA-256 check: the hashed range

The source hashes the first firmware_size - 256 bytes
(image_size_without_sha256 = firmware_size - 256, line 245), not the
first firmware_size - 32 bytes, while the stored digest occupies the
last 32 bytes (get_image_sha256_address). The flash below is a
256-byte image whose last 32 bytes are exactly SHA-256 of its first
224 bytes, which the spec sentence predicts the check accepts. -/

def shaCheckClaimFlash : List Nat :=
  List.replicate 224 0 ++
    [110, 182, 158, 38, 222, 42, 38, 237, 164, 138, 247, 125, 76, 236,
     137, 58, 160, 207, 71, 72, 166, 76, 190, 252, 254, 17, 162, 44, 30,
     104, 10, 217]

/-- Claim C3 counterexample: an image of 256 bytes (a valid size: a
positive multiple of 256) whose final 32 bytes equal SHA-256 of its
first 256 - 32 = 224 bytes; the claim says pfb_firmware_sha256_check
returns zero on it, but the code returns non-zero, because it hashes
the first 256 - 256 = 0 bytes instead. -/
theorem C3_sha_check_counterexample :
    256 % 256 = 0 ∧ 256 ≤ 256
    ∧ (shaCheckClaimFlash.drop (256 - 32)).take 32
        = sha256 (shaCheckClaimFlash.take (256 - 32))
    ∧ pfb_firmware_sha256_check true shaCheckClaimFlash 256 ≠ 0 := by decide

/-- Claim C3 (amended): with the hashing plugin enabled,
pfb_firmware_sha256_check hashes the first image_size - 256 bytes of the
DOWNLOAD region, compares the digest with the 32 bytes stored at offset
image_size - 32, returns zero exactly when they match, and returns 1
when image_size is not a positive multiple of 256. -/
theorem C3_sha_check_hashes_all_but_footer (download : List Nat)
    (image_size : Nat) :
    (image_size % 256 = 0 → 256 ≤ image_size →
      (pfb_firmware_sha256_check true download image_size = 0 ↔
        sha256 (download.take (image_size - 256))
          = (download.drop (image_size - 32)).take 32))
    ∧ (¬(image_size % 256 = 0 ∧ 256 ≤ image_size) →
        pfb_firmware_sha256_check true download image_size = 1) := by
  constructor
  · intro h1 h2
    have hcond : ¬(image_size % PFB_ALIGN_SIZE ≠ 0
        ∨ image_size < PFB_ALIGN_SIZE) := by
      have halign : PFB_ALIGN_SIZE = 256 := rfl
      rw [halign]
      push_neg
      exact ⟨h1, h2⟩
    rw [pfb_firmware_sha256_check, if_pos rfl, if_neg hcond]
    show (if sha256 (download.take (image_size - 256))
        ≠ (download.drop (image_size - 32)).take 32 then 1 else 0) = 0
      ↔ sha256 (download.take (image_size - 256))
        = (download.drop (image_size - 32)).take 32
    by_cases he : sha256 (download.take (image_size - 256))
        = (download.drop (image_size - 32)).take 32
    · rw [if_neg (by simpa using he)]
      simp [he]
    · rw [if_pos he]
      simp [he]
  · intro h
    have hcond : image_size % PFB_ALIGN_SIZE ≠ 0
        ∨ image_size < PFB_ALIGN_SIZE := by
      have halign : PFB_ALIGN_SIZE = 256 := rfl
      rw [halign]
      omega
    rw [pfb_firmware_sha256_check, if_pos rfl, if_pos hcond]

/-- A 256-byte image whose footer digest matches what the code computes:
the last 32 bytes hold SHA-256 of the first 256 - 256 = 0 bytes. -/
def shaCheckFooterFlash : List Nat :=
  List.replicate 224 0 ++
    [227, 176, 196, 66, 152, 252, 28, 20, 154, 251, 244, 200, 153, 111,
     185, 36, 39, 174, 65, 228, 100, 155, 147, 76, 164, 149, 153, 27,
     120, 82, 184, 85]

/-- Claim C3 (amended) witness. -/
theorem C3_sha_check_hashes_all_but_footer_witness :
    (256 % 256 = 0 ∧ 256 ≤ 256)
    ∧ pfb_firmware_sha256_check true shaCheckFooterFlash 256 = 0 := by
  refine ⟨by decide, ?_⟩
  exact ((C3_sha_check_hashes_all_but_footer shaCheckFooterFlash 256).1
    (by decide) (by decide)).mpr (by decide)
